import Mathlib

/-!
Shallow embedding of the proxied-request dispatcher of
`src/services/apiClient.ts` (`executeProxiedRequest`, server resolution),
the server registry helpers of `src/LoginPage.tsx` (serverConfig section),
and the token-pool accessors of `src/services/tokenPoolService.ts`.

External collaborators that are not part of the repository sources
(the Supabase client, `getAvailableServersForUser`, `getDeviceOS`,
`sessionStorage` contents, the browser `fetch`, `Math.random` shuffling)
are modelled as explicit inputs: the dispatcher receives the resolved
token list, a server-environment record, two shuffle functions and a
fetch oracle mapping each attempt number and (server, token) pair to the
observed outcome.
-/

namespace Monoklix

/-! ## String helpers (JS `includes`, `toLowerCase`, `substring`, `replace`) -/

/-- Does the list start with the given pattern (JS `startsWith` on chars)? -/
def startsWithChars : List Char → List Char → Bool
  | [], _ => true
  | _ :: _, [] => false
  | p :: ps, c :: cs => p == c && startsWithChars ps cs

/-- Does the list contain the pattern as a contiguous sublist? -/
def containsChars : List Char → List Char → Bool
  | [], pat => pat.isEmpty
  | c :: cs, pat => startsWithChars pat (c :: cs) || containsChars cs pat

/-- JS `s.includes(pat)`. -/
def strContains (s pat : String) : Bool :=
  containsChars s.data pat.data

/-- JS `s.toLowerCase()` (ASCII case folding, as used on the error markers). -/
def jsToLower (s : String) : String :=
  ⟨s.data.map Char.toLower⟩

/-- JS `s.substring(0, n)`. -/
def jsTake (s : String) (n : Nat) : String :=
  ⟨s.data.take n⟩

/-- Replace the first occurrence of `pat` by `rep` (JS `String.replace` with
a string pattern). -/
def replaceFirstChars (pat rep : List Char) : List Char → List Char
  | [] => []
  | c :: cs =>
    if startsWithChars pat (c :: cs) then rep ++ (c :: cs).drop pat.length
    else c :: replaceFirstChars pat rep cs

/-- JS `s.replace(pat, rep)` for string patterns (first occurrence only). -/
def jsReplace (s pat rep : String) : String :=
  ⟨replaceFirstChars pat.data rep.data s.data⟩

/-! ## Data model -/

/-- Provenance of a candidate token (`source` field in `apiClient.ts`). -/
inductive TokenSource
  | Specific
  | Personal
  | RandomPool
deriving DecidableEq, Repr

/-- One entry of `availableTokens` in `executeProxiedRequest`. -/
structure TokenInfo where
  token : String
  source : TokenSource
deriving DecidableEq, Repr

/-- The `serviceType` parameter of `executeProxiedRequest`. -/
inductive ServiceType
  | veo
  | imagen
deriving DecidableEq, Repr

/-- The error-bearing fields of a parsed JSON response body:
`data.error?.message || data.message` collapsed into one optional string. -/
structure RespData where
  errorMessage : Option String
deriving DecidableEq, Repr

/-- An HTTP response as observed by the dispatcher: status code, raw body
text, and the result of `JSON.parse` on the body (`none` when parsing
throws). -/
structure HttpResp where
  status : Nat
  bodyText : String
  parsed : Option RespData
deriving DecidableEq, Repr

/-- Outcome of one `fetch` call: either the promise rejected with an error
message (network failure and the like), or a response arrived. -/
inductive FetchOutcome
  | thrown (msg : String)
  | resp (r : HttpResp)
deriving DecidableEq, Repr

/-- `response.ok`: status in the 2xx range. -/
def respOk (r : HttpResp) : Bool :=
  decide (200 ≤ r.status) && decide (r.status < 300)

/-- The `data` value the dispatcher ends up with: the parsed body, or the
synthesized error envelope
`{ error: { message: "Proxy returned non-JSON (status): preview" } }`. -/
inductive JsonData
  | parsedBody (d : RespData)
  | nonJsonEnvelope (msg : String)
deriving DecidableEq, Repr

/-- The message of the synthesized non-JSON error envelope. -/
def nonJsonMessage (r : HttpResp) : String :=
  "Proxy returned non-JSON (" ++ toString r.status ++ "): " ++ jsTake r.bodyText 100

/-- The `data` value obtained from a response (line 332-338 of
`apiClient.ts`). -/
def dataOf (r : HttpResp) : JsonData :=
  match r.parsed with
  | some d => JsonData.parsedBody d
  | none => JsonData.nonJsonEnvelope (nonJsonMessage r)

/-- `errorMessage` computed on the non-OK path (line 342):
`data.error?.message || data.message || "API call failed (status)"`. -/
def errorMessageOf (r : HttpResp) : String :=
  match r.parsed with
  | some d => d.errorMessage.getD ("API call failed (" ++ toString r.status ++ ")")
  | none => nonJsonMessage r

/-- Markers checked on the lower-cased message (line 346):
`safety`, `blocked`, `invalid prompt`. -/
def hasFatalMarkerLower (lowerMsg : String) : Bool :=
  strContains lowerMsg "safety" || strContains lowerMsg "blocked" ||
    strContains lowerMsg "invalid prompt"

/-- The hard-error test of the catch block (line 367). -/
def isHardErrorMsg (errMsg : String) : Bool :=
  strContains errMsg "[400]" || hasFatalMarkerLower (jsToLower errMsg)

/-- The transport-error test of the catch block (line 385). -/
def isTransportErrorMsg (errMsg : String) : Bool :=
  strContains errMsg "Failed to fetch" || strContains errMsg "NetworkError" ||
    strContains errMsg "fetch" || strContains errMsg "ERR_"

/-- Classification of one attempt. -/
inductive AttemptClass
  | success (d : JsonData)
  | fatal (msg : String)
  | retriable (msg : String)
deriving DecidableEq, Repr

/-- The catch block of the attempt loop (lines 363-399): hard errors are
re-thrown, transport errors and everything else advance to the next
combination with an updated `lastError`. -/
def catchClassify (serverUrl errMsg : String) : AttemptClass :=
  if isHardErrorMsg errMsg then AttemptClass.fatal errMsg
  else if isTransportErrorMsg errMsg then
    AttemptClass.retriable ("Network error: Cannot connect to " ++ serverUrl)
  else AttemptClass.retriable errMsg

/-- Classification of a single attempt body (lines 322-399): a 2xx response
returns success with the obtained data; a non-OK response with status 400
or a fatal marker in its message throws `[status] message` into the catch
block; any other non-OK response records the message and continues; a
thrown fetch goes to the catch block directly. -/
def classifyAttempt (serverUrl : String) (out : FetchOutcome) : AttemptClass :=
  match out with
  | FetchOutcome.thrown errMsg => catchClassify serverUrl errMsg
  | FetchOutcome.resp r =>
    if respOk r then AttemptClass.success (dataOf r)
    else
      let errorMessage := errorMessageOf r
      if r.status == 400 || hasFatalMarkerLower (jsToLower errorMessage) then
        catchClassify serverUrl ("[" ++ toString r.status ++ "] " ++ errorMessage)
      else AttemptClass.retriable errorMessage

/-! ## Request classification and retry budget -/

/-- `logContext === 'VEO STATUS'` (line 177). -/
def isStatusCheck (logContext : String) : Bool :=
  logContext == "VEO STATUS"

/-- `logContext.includes('GENERATE') || logContext.includes('RECIPE')`
(line 178). -/
def isGenerationRequest (logContext : String) : Bool :=
  strContains logContext "GENERATE" || strContains logContext "RECIPE"

/-- The retry budget (line 277): `min(servers * tokens, 10)` for generation
requests, `1` otherwise. -/
def maxRetries (logContext : String) (nServers nTokens : Nat) : Nat :=
  if isGenerationRequest logContext then min (nServers * nTokens) 10 else 1

/-! ## Log entries (`addLogEntry` calls) -/

/-- The fields of an `addLogEntry` record as built by the dispatcher. -/
structure LogEntry where
  model : String
  prompt : String
  output : String
  tokenCount : Nat
  status : String
  error : String
deriving DecidableEq, Repr

/-- The `source` names used in log text. -/
def sourceName : TokenSource → String
  | TokenSource.Specific => "Specific"
  | TokenSource.Personal => "Personal"
  | TokenSource.RandomPool => "RandomPool"

/-- The log entry appended on a hard error (lines 372-379). -/
def fatalLogEntry (logContext : String) (src : TokenSource) (errMsg : String) : LogEntry :=
  { model := logContext
    prompt := "Failed using " ++ sourceName src ++ " token"
    output := errMsg
    tokenCount := 0
    status := "Error"
    error := errMsg }

/-- The aggregate log entry appended after exhaustion (lines 408-415). -/
def exhaustedLogEntry (logContext : String) (tried : Nat) (errMsg : String) : LogEntry :=
  { model := logContext
    prompt := "Failed after " ++ toString tried ++
      " attempts with different server/token combinations"
    output := errMsg
    tokenCount := 0
    status := "Error"
    error := errMsg }

/-! ## Server registry (`LoginPage.tsx`, serverConfig section) -/

/-- The static proxy-server registry `PROXY_SERVER_URLS`. -/
def PROXY_SERVER_URLS : List String :=
  ["https://s1.monoklix.com", "https://s2.monoklix.com", "https://s3.monoklix.com",
   "https://s4.monoklix.com", "https://s5.monoklix.com", "https://s6.monoklix.com",
   "https://s7.monoklix.com", "https://s8.monoklix.com", "https://s9.monoklix.com",
   "https://s10.monoklix.com", "https://s11.monoklix.com", "https://s12.monoklix.com"]

/-- `IOS_SERVER_IDS`. -/
def IOS_SERVER_IDS : List String :=
  ["s1", "s2", "s3", "s4", "s6"]

/-- `url.replace('https://', '').replace('.monoklix.com', '')`. -/
def serverIdOfUrl (url : String) : String :=
  jsReplace (jsReplace url "https://" "") ".monoklix.com" ""

/-- `getServersForDevice` from the serverConfig section of `LoginPage.tsx`. -/
def getServersForDevice (deviceType : String) (allServers : List String) : List String :=
  if deviceType == "iOS" then
    allServers.filter (fun url => IOS_SERVER_IDS.contains (serverIdOfUrl url))
  else
    allServers.filter (fun url => !(IOS_SERVER_IDS.contains (serverIdOfUrl url)))

/-! ## Server resolution (lines 239-274 of `apiClient.ts`) -/

/-- The ambient inputs of server resolution: the override parameter, the
user/role-scoped registry (`getAvailableServersForUser` result, or
`PROXY_SERVER_URLS` when no user), the detected device OS, the
session-stored selected server, and the localhost/dev-port heuristic. -/
structure ServerEnv where
  overrideServerUrl : Option String
  scopedServers : List String
  deviceType : String
  userSelectedServer : Option String
  isLocalEnv : Bool
deriving Repr

/-- The user-selected-server promotion (lines 260-263): move the selection
to index 0 and drop every other occurrence of it. -/
def promoteSelected (userSelectedServer : Option String) (avail : List String) : List String :=
  match userSelectedServer with
  | some sel =>
    if avail.contains sel then sel :: avail.filter (fun s => !(s == sel)) else avail
  | none => avail

/-- The full server-resolution block (lines 239-274): override wins over
filtering and promotion, but the localhost collapse (lines 266-274) is
applied last and overrides everything, the override included. -/
def resolveServers (env : ServerEnv) : List String :=
  let base :=
    match env.overrideServerUrl with
    | some url => [url]
    | none =>
      let avail := env.scopedServers
      let deviceServers := getServersForDevice env.deviceType avail
      let avail := if 0 < deviceServers.length then deviceServers else avail
      promoteSelected env.userSelectedServer avail
  if env.isLocalEnv then ["http://localhost:3001"] else base

/-! ## The dispatch loop (lines 276-424) -/

/-- The dispatcher's terminal outcomes: success with the winning data and
(token, server) pair, the two authentication errors, an immediately
propagated hard error, exhaustion with the attempt count and last error,
or the defensive fall-through of line 423. -/
inductive DispatchResult
  | success (d : JsonData) (successfulToken : String) (successfulServerUrl : String)
  | authError (msg : String)
  | fatalError (msg : String)
  | exhausted (attempts : Nat) (lastErrMsg : String)
  | noCombination
deriving DecidableEq, Repr

/-- The observable outcome of a dispatch: the result, the `addLogEntry`
records appended, and the final `triedCombinations` counter. -/
structure DispatchOutcome where
  result : DispatchResult
  logs : List LogEntry
  attempts : Nat
deriving DecidableEq, Repr

/-- The row-major cross-product of the (shuffled) server and token lists,
in the order the nested loops of lines 287-290 visit it. -/
def attemptPairs (servers : List String) (tokens : List TokenInfo) :
    List (String × TokenInfo) :=
  servers.flatMap (fun s => tokens.map (fun t => (s, t)))

/-- Default pair used with `List.getD` in statements. -/
def defaultPair : String × TokenInfo :=
  ("", { token := "", source := TokenSource.Specific })

/-- The code after the loop (lines 403-423): with a recorded `lastError`
throw the aggregate exhaustion error (logged unless a status check),
otherwise the defensive fall-through error. -/
def finishLoop (logContext : String) (tried : Nat) (lastError : Option String) :
    DispatchOutcome :=
  match lastError with
  | some e =>
    { result := DispatchResult.exhausted tried e
      logs := if isStatusCheck logContext then [] else [exhaustedLogEntry logContext tried e]
      attempts := tried }
  | none =>
    { result := DispatchResult.noCombination
      logs := []
      attempts := tried }

/-- The nested retry loop of lines 287-401, flattened over the row-major
pair list. Both loop headers re-check `triedCombinations < maxRetries`, so
the loop is exactly: stop at the budget, otherwise step through the pairs
in order. A success returns at once; a hard error appends one log entry
(unless a status check) and re-throws; everything else records the message
in `lastError` and continues. -/
def runLoop (logContext : String) (budget : Nat)
    (fetch : Nat → String → TokenInfo → FetchOutcome) :
    List (String × TokenInfo) → Nat → Option String → DispatchOutcome
  | [], tried, lastError => finishLoop logContext tried lastError
  | (s, t) :: rest, tried, lastError =>
    if tried < budget then
      match classifyAttempt s (fetch (tried + 1) s t) with
      | AttemptClass.success d =>
        { result := DispatchResult.success d t.token s
          logs := []
          attempts := tried + 1 }
      | AttemptClass.fatal msg =>
        { result := DispatchResult.fatalError msg
          logs := if isStatusCheck logContext then [] else
            [fatalLogEntry logContext t.source msg]
          attempts := tried + 1 }
      | AttemptClass.retriable msg =>
        runLoop logContext budget fetch rest (tried + 1) (some msg)
    else finishLoop logContext tried lastError

/-- The two authentication-failure messages (lines 229-237). -/
def authErrorMessage : ServiceType → String
  | ServiceType.imagen =>
    "Authentication failed: No token available. Please login to Flow or set your personal token in Settings > Token & API."
  | ServiceType.veo =>
    "Authentication failed: No Personal Token found. Please go to Settings > Token & API and set your token."

/-- `executeProxiedRequest`, from the point where the candidate token list
has been resolved (the token-resolution steps of lines 184-227 consult the
network and browser storage and are supplied as the `availableTokens`
input; the imagen assembly itself is modelled below as
`resolveImagenTokens`). The empty-token check precedes server resolution
and every network call; the budget is computed from the unshuffled list
lengths; the loop walks the row-major cross-product of the two
independently shuffled lists. -/
def executeProxiedRequest (serviceType : ServiceType) (logContext : String)
    (availableTokens : List TokenInfo) (env : ServerEnv)
    (shuffleS : List String → List String)
    (shuffleT : List TokenInfo → List TokenInfo)
    (fetch : Nat → String → TokenInfo → FetchOutcome) : DispatchOutcome :=
  if availableTokens.isEmpty then
    { result := DispatchResult.authError (authErrorMessage serviceType)
      logs := []
      attempts := 0 }
  else
    runLoop logContext
      (maxRetries logContext (resolveServers env).length availableTokens.length) fetch
      (attemptPairs (shuffleS (resolveServers env)) (shuffleT availableTokens)) 0 none

/-! ## Token-pool accessors (`tokenPoolService.ts`) and imagen token assembly -/

/-- The JSON value stored under `flow_token_pool`: either a string that
`JSON.parse` rejects, or a parsed object whose `tokens` field may be
absent/falsy (`pool.tokens || []`). -/
inductive StoredPool
  | corrupt
  | pool (tokens : Option (List String)) (timestamp : Int)
deriving DecidableEq, Repr

/-- The session-storage keys the token pool service uses. -/
structure SessionStore where
  tokenPool : Option StoredPool
  tokenPoolTimestamp : Option String
deriving DecidableEq, Repr

/-- `TOKEN_POOL_EXPIRY_HOURS * 60 * 60 * 1000`. -/
def tokenPoolExpiryMs : Int :=
  24 * 60 * 60 * 1000

/-- `clearTokenPool`: removes both keys. -/
def clearTokenPool (st : SessionStore) : SessionStore :=
  { st with tokenPool := none, tokenPoolTimestamp := none }

/-- `getAllTokens` (lines 117-138 of `tokenPoolService.ts`): returns the
stored pool tokens together with the storage state it leaves behind.
A missing key or a parse failure yields `[]`; an expired pool is cleared
and yields `[]`; otherwise `pool.tokens || []` is returned. -/
def getAllTokens (now : Int) (st : SessionStore) : List String × SessionStore :=
  match st.tokenPool with
  | none => ([], st)
  | some StoredPool.corrupt => ([], st)
  | some (StoredPool.pool tokens timestamp) =>
    if tokenPoolExpiryMs < now - timestamp then ([], clearTokenPool st)
    else (tokens.getD [], st)

/-- The pool-token append step of the imagen branch (lines 208-214):
push each pool token not already present. -/
def addPoolTokens (base : List TokenInfo) (poolTokens : List String) : List TokenInfo :=
  poolTokens.foldl
    (fun acc token =>
      if acc.any (fun t => t.token == token) then acc
      else acc ++ [{ token := token, source := TokenSource.RandomPool }])
    base

/-- The imagen token assembly (lines 195-214): personal token first (local
cache or DB fallback, supplied as an optional input), then the deduplicated
pool tokens. -/
def resolveImagenTokens (personal : Option String) (poolTokens : List String) :
    List TokenInfo :=
  let base :=
    match personal with
    | some p => [{ token := p, source := TokenSource.Personal }]
    | none => []
  addPoolTokens base poolTokens

/-! ## Concrete sample inputs used to instantiate theorems -/

/-- A sample personal token. -/
def tokPersonal : TokenInfo :=
  { token := "tok", source := TokenSource.Personal }

/-- A sample environment pinning the server list to s1 via the override. -/
def sampleEnv : ServerEnv :=
  { overrideServerUrl := some "https://s1.monoklix.com"
    scopedServers := []
    deviceType := ""
    userSelectedServer := none
    isLocalEnv := false }

/-- A sample environment with no override, empty scoped registry, not local. -/
def emptyEnv : ServerEnv :=
  { overrideServerUrl := none
    scopedServers := []
    deviceType := ""
    userSelectedServer := none
    isLocalEnv := false }

/-- A sample environment with an override while the runtime is local. -/
def localOverrideEnv : ServerEnv :=
  { overrideServerUrl := some "https://s2.monoklix.com"
    scopedServers := []
    deviceType := ""
    userSelectedServer := none
    isLocalEnv := true }

/-- A sample environment whose scoped registry repeats the selected server. -/
def dupSelectedEnv : ServerEnv :=
  { overrideServerUrl := none
    scopedServers := ["A", "B", "A"]
    deviceType := "Windows PC"
    userSelectedServer := some "A"
    isLocalEnv := false }

/-- A 500 response whose body parses with error message "boom". -/
def resp500 : HttpResp :=
  { status := 500, bodyText := "", parsed := some { errorMessage := some "boom" } }

/-- A 400 response whose body parses with error message "bad". -/
def resp400 : HttpResp :=
  { status := 400, bodyText := "", parsed := some { errorMessage := some "bad" } }

/-- A fetch oracle that always yields `resp500`. -/
def fetch500 : Nat → String → TokenInfo → FetchOutcome :=
  fun _ _ _ => FetchOutcome.resp resp500

/-- A fetch oracle that always yields `resp400`. -/
def fetch400 : Nat → String → TokenInfo → FetchOutcome :=
  fun _ _ _ => FetchOutcome.resp resp400

/-! ## Helper lemmas: string containment -/

lemma startsWithChars_self_append (p l : List Char) :
    startsWithChars p (p ++ l) = true := by
  induction p with
  | nil => rfl
  | cons c cs ih => simp [startsWithChars, ih]

lemma containsChars_of_startsWith (l pat : List Char)
    (h : startsWithChars pat l = true) : containsChars l pat = true := by
  cases l with
  | nil =>
    cases pat with
    | nil => rfl
    | cons c cs => simp [startsWithChars] at h
  | cons c cs => simp [containsChars, h]

lemma containsChars_append_left (pre l pat : List Char)
    (h : containsChars l pat = true) : containsChars (pre ++ l) pat = true := by
  induction pre with
  | nil => simpa using h
  | cons c cs ih => simp [containsChars, ih]

lemma hasFatalMarkerLower_append (pre em : String)
    (h : hasFatalMarkerLower (jsToLower em) = true) :
    hasFatalMarkerLower (jsToLower (pre ++ em)) = true := by
  have e1 : (jsToLower (pre ++ em)).data =
      pre.data.map Char.toLower ++ em.data.map Char.toLower := by
    show (pre ++ em).data.map Char.toLower = _
    rw [show (pre ++ em).data = pre.data ++ em.data from rfl, List.map_append]
  show (containsChars (jsToLower (pre ++ em)).data "safety".data ||
      containsChars (jsToLower (pre ++ em)).data "blocked".data ||
      containsChars (jsToLower (pre ++ em)).data "invalid prompt".data) = true
  rw [e1]
  have h' : (containsChars (em.data.map Char.toLower) "safety".data ||
      containsChars (em.data.map Char.toLower) "blocked".data ||
      containsChars (em.data.map Char.toLower) "invalid prompt".data) = true := h
  simp only [Bool.or_eq_true] at h' ⊢
  rcases h' with (h' | h') | h'
  · exact Or.inl (Or.inl (containsChars_append_left _ _ _ h'))
  · exact Or.inl (Or.inr (containsChars_append_left _ _ _ h'))
  · exact Or.inr (containsChars_append_left _ _ _ h')

lemma isHard_of_400 (em : String) :
    isHardErrorMsg ("[" ++ toString (400 : Nat) ++ "] " ++ em) = true := by
  unfold isHardErrorMsg
  simp only [Bool.or_eq_true]
  left
  show containsChars ("[" ++ toString (400 : Nat) ++ "] " ++ em).data "[400]".data = true
  have e : ("[" ++ toString (400 : Nat) ++ "] " ++ em).data =
      "[400]".data ++ (' ' :: em.data) := by
    show ("[400] " ++ em).data = _
    rw [show ("[400] " ++ em).data = "[400] ".data ++ em.data from rfl]
    rw [show ("[400] ".data : List Char) = "[400]".data ++ [' '] from rfl]
    simp
  rw [e]
  exact containsChars_of_startsWith _ _ (startsWithChars_self_append _ _)

lemma isHard_of_marker (pre em : String)
    (h : hasFatalMarkerLower (jsToLower em) = true) :
    isHardErrorMsg (pre ++ em) = true := by
  unfold isHardErrorMsg
  simp only [Bool.or_eq_true]
  right
  exact hasFatalMarkerLower_append pre em h

lemma respOk_of_400 (r : HttpResp) (h : r.status = 400) : respOk r = false := by
  simp [respOk, h]

/-! ## Helper lemmas: pairs, budget -/

lemma attemptPairs_length (S : List String) (T : List TokenInfo) :
    (attemptPairs S T).length = S.length * T.length := by
  induction S with
  | nil => simp [attemptPairs]
  | cons s ss ih =>
    simp only [attemptPairs, List.flatMap_cons, List.length_append, List.length_map]
    simp only [attemptPairs] at ih
    rw [ih, List.length_cons]
    ring

lemma maxRetries_pos (lc : String) (nS nT : Nat) (hS : 0 < nS) (hT : 0 < nT) :
    0 < maxRetries lc nS nT := by
  have hmul : 0 < nS * nT := Nat.mul_pos hS hT
  unfold maxRetries
  split <;> omega

lemma maxRetries_le_product (lc : String) (nS nT : Nat) (hS : 0 < nS) (hT : 0 < nT) :
    maxRetries lc nS nT ≤ nS * nT := by
  have hmul : 0 < nS * nT := Nat.mul_pos hS hT
  unfold maxRetries
  split <;> omega

/-! ## Helper lemmas: the retry loop -/

lemma runLoop_attempts_le (lc : String) (budget : Nat)
    (fetch : Nat → String → TokenInfo → FetchOutcome) :
    ∀ (pairs : List (String × TokenInfo)) (tried : Nat) (lastE : Option String),
      tried ≤ budget →
      (runLoop lc budget fetch pairs tried lastE).attempts ≤ budget := by
  intro pairs
  induction pairs with
  | nil =>
    intro tried lastE h
    cases lastE <;> simpa [runLoop, finishLoop] using h
  | cons p rest ih =>
    intro tried lastE h
    obtain ⟨s, t⟩ := p
    by_cases hlt : tried < budget
    · rw [runLoop, if_pos hlt]
      cases hc : classifyAttempt s (fetch (tried + 1) s t) with
      | success d => simpa using hlt
      | fatal m => simpa using hlt
      | retriable m => exact ih (tried + 1) (some m) hlt
    · rw [runLoop, if_neg hlt]
      cases lastE <;> simpa [finishLoop] using h

lemma runLoop_logs_shape (lc : String) (budget : Nat)
    (fetch : Nat → String → TokenInfo → FetchOutcome) :
    ∀ (pairs : List (String × TokenInfo)) (tried : Nat) (lastE : Option String),
      (isStatusCheck lc = true → (runLoop lc budget fetch pairs tried lastE).logs = []) ∧
      (∀ d tk sv, (runLoop lc budget fetch pairs tried lastE).result =
          DispatchResult.success d tk sv →
        (runLoop lc budget fetch pairs tried lastE).logs = []) ∧
      ((runLoop lc budget fetch pairs tried lastE).result = DispatchResult.noCombination →
        (runLoop lc budget fetch pairs tried lastE).logs = []) ∧
      (∀ msg, (runLoop lc budget fetch pairs tried lastE).result =
          DispatchResult.authError msg →
        (runLoop lc budget fetch pairs tried lastE).logs = []) ∧
      (isStatusCheck lc = false → ∀ msg,
        (runLoop lc budget fetch pairs tried lastE).result = DispatchResult.fatalError msg →
        (runLoop lc budget fetch pairs tried lastE).logs.length = 1) ∧
      (isStatusCheck lc = false → ∀ n e,
        (runLoop lc budget fetch pairs tried lastE).result = DispatchResult.exhausted n e →
        (runLoop lc budget fetch pairs tried lastE).logs.length = 1) ∧
      (runLoop lc budget fetch pairs tried lastE).logs.length ≤ 1 := by
  intro pairs
  induction pairs with
  | nil =>
    intro tried lastE
    cases lastE with
    | none => simp [runLoop, finishLoop]
    | some e =>
      by_cases hsc : isStatusCheck lc <;>
        simp [runLoop, finishLoop, hsc]
  | cons p rest ih =>
    intro tried lastE
    obtain ⟨s, t⟩ := p
    by_cases hlt : tried < budget
    · rw [runLoop, if_pos hlt]
      cases hc : classifyAttempt s (fetch (tried + 1) s t) with
      | success d => simp
      | fatal m =>
        by_cases hsc : isStatusCheck lc <;> simp [hsc]
      | retriable m => exact ih (tried + 1) (some m)
    · rw [runLoop, if_neg hlt]
      cases lastE with
      | none => simp [finishLoop]
      | some e =>
        by_cases hsc : isStatusCheck lc <;>
          simp [finishLoop, hsc]

lemma runLoop_all_retriable (lc : String) (budget : Nat)
    (fetch : Nat → String → TokenInfo → FetchOutcome) (m : Nat → String)
    (hb : 0 < budget) :
    ∀ (pairs : List (String × TokenInfo)) (tried : Nat) (lastE : Option String),
      tried ≤ budget →
      budget ≤ tried + pairs.length →
      lastE = (if tried = 0 then none else some (m tried)) →
      (∀ i, i < pairs.length → tried + i < budget →
        classifyAttempt (pairs.getD i defaultPair).1
          (fetch (tried + i + 1) (pairs.getD i defaultPair).1
            (pairs.getD i defaultPair).2) =
          AttemptClass.retriable (m (tried + i + 1))) →
      runLoop lc budget fetch pairs tried lastE =
        { result := DispatchResult.exhausted budget (m budget)
          logs := if isStatusCheck lc then [] else
            [exhaustedLogEntry lc budget (m budget)]
          attempts := budget } := by
  intro pairs
  induction pairs with
  | nil =>
    intro tried lastE h1 h2 h3 _
    have htb : tried = budget := by simp at h2; omega
    subst htb
    have hz : ¬ tried = 0 := by omega
    rw [h3, if_neg hz]
    simp [runLoop, finishLoop]
  | cons p rest ih =>
    intro tried lastE h1 h2 h3 hall
    obtain ⟨s, t⟩ := p
    by_cases hlt : tried < budget
    · have hc := hall 0 (by simp) (by simpa using hlt)
      simp only [List.getD_cons_zero, Nat.add_zero] at hc
      rw [runLoop, if_pos hlt, hc]
      apply ih (tried + 1) (some (m (tried + 1))) hlt
      · simp only [List.length_cons] at h2
        omega
      · simp
      · intro i hi hib
        have := hall (i + 1) (by simpa using hi) (by omega)
        simp only [List.getD_cons_succ] at this
        have harith : tried + (i + 1) = tried + 1 + i := by omega
        rw [harith] at this
        exact this
    · have htb : tried = budget := by omega
      subst htb
      have hz : ¬ tried = 0 := by omega
      rw [h3, if_neg hz, runLoop, if_neg hlt]
      simp [finishLoop]

lemma runLoop_success_at (lc : String) (budget : Nat)
    (fetch : Nat → String → TokenInfo → FetchOutcome) (m : Nat → String) :
    ∀ (j : Nat) (pairs : List (String × TokenInfo)) (tried : Nat)
      (lastE : Option String) (s0 : String) (t0 : TokenInfo) (d : JsonData),
      tried + j < budget →
      j < pairs.length →
      (∀ i, i < j →
        classifyAttempt (pairs.getD i defaultPair).1
          (fetch (tried + i + 1) (pairs.getD i defaultPair).1
            (pairs.getD i defaultPair).2) =
          AttemptClass.retriable (m (tried + i + 1))) →
      pairs.getD j defaultPair = (s0, t0) →
      classifyAttempt s0 (fetch (tried + j + 1) s0 t0) = AttemptClass.success d →
      runLoop lc budget fetch pairs tried lastE =
        { result := DispatchResult.success d t0.token s0
          logs := []
          attempts := tried + j + 1 } := by
  intro j
  induction j with
  | zero =>
    intro pairs tried lastE s0 t0 d hb hlen _ hj hs
    cases pairs with
    | nil => simp at hlen
    | cons p rest =>
      obtain ⟨s, t⟩ := p
      simp only [List.getD_cons_zero] at hj
      obtain ⟨rfl, rfl⟩ : s = s0 ∧ t = t0 := by
        simpa [Prod.ext_iff] using hj
      have hlt : tried < budget := by omega
      simp only [Nat.add_zero] at hs
      rw [runLoop, if_pos hlt, hs]
  | succ j ih =>
    intro pairs tried lastE s0 t0 d hb hlen hpre hj hs
    cases pairs with
    | nil => simp at hlen
    | cons p rest =>
      obtain ⟨s, t⟩ := p
      have h0 := hpre 0 (Nat.succ_pos j)
      simp only [List.getD_cons_zero, Nat.add_zero] at h0
      have hlt : tried < budget := by omega
      rw [runLoop, if_pos hlt, h0]
      have harith : tried + (j + 1) = tried + 1 + j := by omega
      have hres := ih rest (tried + 1) (some (m (tried + 1))) s0 t0 d
        (by omega)
        (by simpa using hlen)
        (fun i hi => by
          have := hpre (i + 1) (by omega)
          simp only [List.getD_cons_succ] at this
          have e : tried + (i + 1) = tried + 1 + i := by omega
          rw [e] at this
          exact this)
        (by simpa using hj)
        (by rw [← harith]; exact hs)
      have e2 : tried + 1 + j + 1 = tried + (j + 1) + 1 := by omega
      rw [← e2]
      exact hres

lemma runLoop_fatal_at (lc : String) (budget : Nat)
    (fetch : Nat → String → TokenInfo → FetchOutcome) (m : Nat → String) :
    ∀ (j : Nat) (pairs : List (String × TokenInfo)) (tried : Nat)
      (lastE : Option String) (s0 : String) (t0 : TokenInfo) (msg : String),
      tried + j < budget →
      j < pairs.length →
      (∀ i, i < j →
        classifyAttempt (pairs.getD i defaultPair).1
          (fetch (tried + i + 1) (pairs.getD i defaultPair).1
            (pairs.getD i defaultPair).2) =
          AttemptClass.retriable (m (tried + i + 1))) →
      pairs.getD j defaultPair = (s0, t0) →
      classifyAttempt s0 (fetch (tried + j + 1) s0 t0) = AttemptClass.fatal msg →
      runLoop lc budget fetch pairs tried lastE =
        { result := DispatchResult.fatalError msg
          logs := if isStatusCheck lc then [] else [fatalLogEntry lc t0.source msg]
          attempts := tried + j + 1 } := by
  intro j
  induction j with
  | zero =>
    intro pairs tried lastE s0 t0 msg hb hlen _ hj hs
    cases pairs with
    | nil => simp at hlen
    | cons p rest =>
      obtain ⟨s, t⟩ := p
      simp only [List.getD_cons_zero] at hj
      obtain ⟨rfl, rfl⟩ : s = s0 ∧ t = t0 := by
        simpa [Prod.ext_iff] using hj
      have hlt : tried < budget := by omega
      simp only [Nat.add_zero] at hs
      rw [runLoop, if_pos hlt, hs]
  | succ j ih =>
    intro pairs tried lastE s0 t0 msg hb hlen hpre hj hs
    cases pairs with
    | nil => simp at hlen
    | cons p rest =>
      obtain ⟨s, t⟩ := p
      have h0 := hpre 0 (Nat.succ_pos j)
      simp only [List.getD_cons_zero, Nat.add_zero] at h0
      have hlt : tried < budget := by omega
      rw [runLoop, if_pos hlt, h0]
      have harith : tried + (j + 1) = tried + 1 + j := by omega
      have hres := ih rest (tried + 1) (some (m (tried + 1))) s0 t0 msg
        (by omega)
        (by simpa using hlen)
        (fun i hi => by
          have := hpre (i + 1) (by omega)
          simp only [List.getD_cons_succ] at this
          have e : tried + (i + 1) = tried + 1 + i := by omega
          rw [e] at this
          exact this)
        (by simpa using hj)
        (by rw [← harith]; exact hs)
      have e2 : tried + 1 + j + 1 = tried + (j + 1) + 1 := by omega
      rw [← e2]
      exact hres

lemma catchClassify_ne_success (serverUrl errMsg : String) (d : JsonData) :
    catchClassify serverUrl errMsg ≠ AttemptClass.success d := by
  unfold catchClassify
  split
  · simp
  · split <;> simp

lemma count_filter_self (sel : String) (l : List String) :
    (l.filter (fun s => !(s == sel))).count sel = 0 := by
  rw [List.count_eq_zero]
  intro hmem
  rw [List.mem_filter] at hmem
  simp at hmem

lemma count_filter_ne (sel x : String) (hx : x ≠ sel) (l : List String) :
    (l.filter (fun s => !(s == sel))).count x = l.count x := by
  induction l with
  | nil => rfl
  | cons a t ih =>
    by_cases ha : a = sel
    · subst ha
      simp [List.filter_cons, List.count_cons, ih, hx]
    · simp [List.filter_cons, List.count_cons, ih, ha]

/-! ## Claim theorems -/

/-- C1: for every dispatch with non-empty candidate token and server lists,
the number of attempts made by `executeProxiedRequest` never exceeds the
retry budget, which is `min(|servers| * |tokens|, 10)` for generation-class
requests (`logContext` containing a GENERATE/RECIPE marker) and `1` for all
other requests. -/
theorem C1_attempts_within_budget (serviceType : ServiceType) (logContext : String)
    (tokens : List TokenInfo) (env : ServerEnv)
    (shuffleS : List String → List String)
    (shuffleT : List TokenInfo → List TokenInfo)
    (fetch : Nat → String → TokenInfo → FetchOutcome)
    (htok : tokens ≠ []) (hsrv : resolveServers env ≠ []) :
    (executeProxiedRequest serviceType logContext tokens env shuffleS shuffleT fetch).attempts ≤
      (if isGenerationRequest logContext then
        min ((resolveServers env).length * tokens.length) 10
      else 1) := by
  unfold executeProxiedRequest
  rw [if_neg (by simpa [List.isEmpty_iff] using htok)]
  exact runLoop_attempts_le _ _ _ _ 0 none (Nat.zero_le _)

/-- C1 witness: the budget bound at a concrete dispatch. -/
theorem C1_witness :
    (executeProxiedRequest ServiceType.imagen "IMAGEN GENERATE" [tokPersonal]
        sampleEnv id id fetch500).attempts ≤
      (if isGenerationRequest "IMAGEN GENERATE" then
        min ((resolveServers sampleEnv).length * [tokPersonal].length) 10
      else 1) :=
  C1_attempts_within_budget ServiceType.imagen "IMAGEN GENERATE" [tokPersonal]
    sampleEnv id id fetch500 (by decide) (by decide)

/-- C3: an empty resolved token list makes `executeProxiedRequest` fail at
once with the service-specific authentication error — zero attempts, no
logging, independent of the fetch oracle — and the imagen (secondary) and
veo (primary) messages differ, each naming the set-personal-token
remediation in Settings. -/
theorem C3_empty_tokens_auth_error (serviceType : ServiceType) (logContext : String)
    (env : ServerEnv) (shuffleS : List String → List String)
    (shuffleT : List TokenInfo → List TokenInfo)
    (fetch : Nat → String → TokenInfo → FetchOutcome) :
    executeProxiedRequest serviceType logContext [] env shuffleS shuffleT fetch =
      { result := DispatchResult.authError (authErrorMessage serviceType)
        logs := []
        attempts := 0 } ∧
    authErrorMessage ServiceType.imagen ≠ authErrorMessage ServiceType.veo ∧
    strContains (authErrorMessage ServiceType.imagen) "set your personal token" = true ∧
    strContains (authErrorMessage ServiceType.veo) "set your token" = true ∧
    strContains (authErrorMessage ServiceType.imagen) "Settings > Token & API" = true ∧
    strContains (authErrorMessage ServiceType.veo) "Settings > Token & API" = true := by
  refine ⟨?_, by decide, by decide, by decide, by decide, by decide⟩
  simp [executeProxiedRequest]

/-- C10: `getAllTokens` is total over every modelled session-storage state:
a missing key or a corrupt/unparsable pool yields `[]` with storage
untouched; a parsed pool without a usable `tokens` field yields `[]`; an
expired pool (timestamp older than 24 hours) is cleared and yields `[]`,
so an expired pool contributes no RandomPool tokens to the imagen
candidate token list. -/
theorem C10_getAllTokens_total (now : Int) (st : SessionStore) :
    (st.tokenPool = none → getAllTokens now st = ([], st)) ∧
    (st.tokenPool = some StoredPool.corrupt → getAllTokens now st = ([], st)) ∧
    (∀ ts, st.tokenPool = some (StoredPool.pool none ts) →
      (getAllTokens now st).1 = []) ∧
    (∀ toks ts, st.tokenPool = some (StoredPool.pool toks ts) →
      tokenPoolExpiryMs < now - ts →
      getAllTokens now st = ([], clearTokenPool st) ∧
        (clearTokenPool st).tokenPool = none) ∧
    (∀ personal toks ts, st.tokenPool = some (StoredPool.pool toks ts) →
      tokenPoolExpiryMs < now - ts →
      ∀ t ∈ resolveImagenTokens personal (getAllTokens now st).1,
        t.source ≠ TokenSource.RandomPool) := by
  refine ⟨?_, ?_, ?_, ?_, ?_⟩
  · intro h
    simp [getAllTokens, h]
  · intro h
    simp [getAllTokens, h]
  · intro ts h
    simp only [getAllTokens, h]
    split <;> simp
  · intro toks ts h hexp
    refine ⟨?_, rfl⟩
    simp only [getAllTokens, h]
    rw [if_pos hexp]
  · intro personal toks ts h hexp t hmem
    have h1 : (getAllTokens now st).1 = [] := by
      simp only [getAllTokens, h]
      rw [if_pos hexp]
    rw [h1] at hmem
    cases personal with
    | none => simp [resolveImagenTokens, addPoolTokens] at hmem
    | some p =>
      simp [resolveImagenTokens, addPoolTokens] at hmem
      rw [hmem]
      simp

/-- C10 witness: a corrupt stored pool yields the empty list with storage
untouched. -/
theorem C10_witness :
    getAllTokens 5 { tokenPool := some StoredPool.corrupt, tokenPoolTimestamp := none } =
      ([], { tokenPool := some StoredPool.corrupt, tokenPoolTimestamp := none }) :=
  (C10_getAllTokens_total 5
    { tokenPool := some StoredPool.corrupt, tokenPoolTimestamp := none }).2.1 rfl

/-- C2: an attempt whose HTTP status is 400, or whose non-OK error message
contains (case-insensitively) a safety/blocked/invalid-prompt marker, is
fatal: the dispatcher stops after that single attempt with the re-thrown
`[status] message` error, and the only log entry (for non-status-check
requests) is the single fatal record — the aggregate "exhausted" record is
never appended. -/
theorem C2_fatal_short_circuit (serviceType : ServiceType) (logContext : String)
    (tokens : List TokenInfo) (env : ServerEnv)
    (shuffleS : List String → List String)
    (shuffleT : List TokenInfo → List TokenInfo)
    (fetch : Nat → String → TokenInfo → FetchOutcome)
    (m : Nat → String) (j : Nat) (s0 : String) (t0 : TokenInfo) (r : HttpResp)
    (htok : tokens ≠ [])
    (hjlen : j < (attemptPairs (shuffleS (resolveServers env))
      (shuffleT tokens)).length)
    (hjbud : j < maxRetries logContext (resolveServers env).length tokens.length)
    (hpre : ∀ i, i < j →
      classifyAttempt
        ((attemptPairs (shuffleS (resolveServers env))
          (shuffleT tokens)).getD i defaultPair).1
        (fetch (i + 1)
          ((attemptPairs (shuffleS (resolveServers env))
            (shuffleT tokens)).getD i defaultPair).1
          ((attemptPairs (shuffleS (resolveServers env))
            (shuffleT tokens)).getD i defaultPair).2) =
        AttemptClass.retriable (m (i + 1)))
    (hj : (attemptPairs (shuffleS (resolveServers env))
      (shuffleT tokens)).getD j defaultPair = (s0, t0))
    (hf : fetch (j + 1) s0 t0 = FetchOutcome.resp r)
    (hfatal : r.status = 400 ∨
      (respOk r = false ∧
        hasFatalMarkerLower (jsToLower (errorMessageOf r)) = true)) :
    executeProxiedRequest serviceType logContext tokens env shuffleS shuffleT fetch =
      { result := DispatchResult.fatalError
          ("[" ++ toString r.status ++ "] " ++ errorMessageOf r)
        logs := if isStatusCheck logContext then [] else
          [fatalLogEntry logContext t0.source
            ("[" ++ toString r.status ++ "] " ++ errorMessageOf r)]
        attempts := j + 1 } := by
  have hok : respOk r = false := by
    rcases hfatal with h | ⟨h, _⟩
    · exact respOk_of_400 r h
    · exact h
  have hguard : (r.status == 400 ||
      hasFatalMarkerLower (jsToLower (errorMessageOf r))) = true := by
    rcases hfatal with h | ⟨_, h⟩ <;> simp [h]
  have hhard : isHardErrorMsg
      ("[" ++ toString r.status ++ "] " ++ errorMessageOf r) = true := by
    rcases hfatal with h | ⟨_, h⟩
    · rw [h]
      exact isHard_of_400 (errorMessageOf r)
    · exact isHard_of_marker ("[" ++ toString r.status ++ "] ") (errorMessageOf r) h
  have hclass : classifyAttempt s0 (FetchOutcome.resp r) =
      AttemptClass.fatal ("[" ++ toString r.status ++ "] " ++ errorMessageOf r) := by
    show (if respOk r = true then AttemptClass.success (dataOf r)
      else
        if (r.status == 400 ||
            hasFatalMarkerLower (jsToLower (errorMessageOf r))) = true then
          catchClassify s0 ("[" ++ toString r.status ++ "] " ++ errorMessageOf r)
        else AttemptClass.retriable (errorMessageOf r)) =
      AttemptClass.fatal ("[" ++ toString r.status ++ "] " ++ errorMessageOf r)
    rw [hok]
    simp only [Bool.false_eq_true, if_false]
    rw [if_pos hguard]
    unfold catchClassify
    rw [if_pos hhard]
  unfold executeProxiedRequest
  rw [if_neg (by simpa [List.isEmpty_iff] using htok)]
  have hres := runLoop_fatal_at logContext
    (maxRetries logContext (resolveServers env).length tokens.length) fetch m j
    (attemptPairs (shuffleS (resolveServers env)) (shuffleT tokens)) 0 none
    s0 t0 ("[" ++ toString r.status ++ "] " ++ errorMessageOf r)
    (by omega) hjlen
    (fun i hi => by
      have := hpre i hi
      simpa using this)
    hj
    (by
      rw [show (0 + j + 1 : Nat) = j + 1 from by omega, hf]
      exact hclass)
  rw [hres]
  simp

/-- C2 witness: a concrete 400 response short-circuits after one attempt
with only the fatal log record. -/
theorem C2_witness :
    executeProxiedRequest ServiceType.veo "VEO GENERATE" [tokPersonal]
        sampleEnv id id fetch400 =
      { result := DispatchResult.fatalError
          ("[" ++ toString resp400.status ++ "] " ++ errorMessageOf resp400)
        logs := if isStatusCheck "VEO GENERATE" then [] else
          [fatalLogEntry "VEO GENERATE" tokPersonal.source
            ("[" ++ toString resp400.status ++ "] " ++ errorMessageOf resp400)]
        attempts := 1 } :=
  C2_fatal_short_circuit ServiceType.veo "VEO GENERATE" [tokPersonal] sampleEnv
    id id fetch400 (fun _ => "") 0 "https://s1.monoklix.com" tokPersonal resp400
    (by decide) (by decide) (by decide)
    (fun i hi => absurd hi (Nat.not_lt_zero i))
    (by decide) rfl (Or.inl rfl)

/-- C4 counterexample: a 2xx response whose body is not valid JSON is
classified Success (returning the synthesized error envelope as data) and
the dispatcher returns it — the claim instead requires every non-JSON body
to be a RetriableFailure that advances dispatch. -/
theorem C4_counterexample :
    classifyAttempt "https://s1.monoklix.com"
        (FetchOutcome.resp { status := 200, bodyText := "hello", parsed := none }) =
      AttemptClass.success
        (JsonData.nonJsonEnvelope "Proxy returned non-JSON (200): hello") ∧
    executeProxiedRequest ServiceType.imagen "IMAGEN GENERATE" [tokPersonal]
        sampleEnv id id
        (fun _ _ _ =>
          FetchOutcome.resp { status := 200, bodyText := "hello", parsed := none }) =
      { result := DispatchResult.success
          (JsonData.nonJsonEnvelope "Proxy returned non-JSON (200): hello")
          "tok" "https://s1.monoklix.com"
        logs := []
        attempts := 1 } := by
  constructor
  · decide
  · decide

/-- C4 (amended): an attempt is classified Success exactly when the HTTP
status is 2xx — on a non-JSON body the returned data is the synthesized
error envelope; a non-2xx attempt with a non-JSON body is a
RetriableFailure unless its status is 400 or the synthesized message
carries a fatal marker; and after any run of RetriableFailures, a Success
at position j makes the dispatcher return that attempt's data with its
(token, server) pair. -/
theorem C4_amended_success_iff (serverUrl : String) (r : HttpResp)
    (serviceType : ServiceType) (lc : String) (tokens : List TokenInfo)
    (env : ServerEnv) (shuffleS : List String → List String)
    (shuffleT : List TokenInfo → List TokenInfo)
    (fetch : Nat → String → TokenInfo → FetchOutcome)
    (m : Nat → String) (j : Nat) (s0 : String) (t0 : TokenInfo) (d : JsonData) :
    (classifyAttempt serverUrl (FetchOutcome.resp r) =
        AttemptClass.success (dataOf r) ↔ respOk r = true) ∧
    (respOk r = false → r.parsed = none → r.status ≠ 400 →
      hasFatalMarkerLower (jsToLower (nonJsonMessage r)) = false →
      classifyAttempt serverUrl (FetchOutcome.resp r) =
        AttemptClass.retriable (nonJsonMessage r)) ∧
    (tokens ≠ [] →
      j < (attemptPairs (shuffleS (resolveServers env)) (shuffleT tokens)).length →
      j < maxRetries lc (resolveServers env).length tokens.length →
      (∀ i, i < j →
        classifyAttempt
          ((attemptPairs (shuffleS (resolveServers env))
            (shuffleT tokens)).getD i defaultPair).1
          (fetch (i + 1)
            ((attemptPairs (shuffleS (resolveServers env))
              (shuffleT tokens)).getD i defaultPair).1
            ((attemptPairs (shuffleS (resolveServers env))
              (shuffleT tokens)).getD i defaultPair).2) =
          AttemptClass.retriable (m (i + 1))) →
      (attemptPairs (shuffleS (resolveServers env))
        (shuffleT tokens)).getD j defaultPair = (s0, t0) →
      classifyAttempt s0 (fetch (j + 1) s0 t0) = AttemptClass.success d →
      executeProxiedRequest serviceType lc tokens env shuffleS shuffleT fetch =
        { result := DispatchResult.success d t0.token s0
          logs := []
          attempts := j + 1 }) := by
  refine ⟨?_, ?_, ?_⟩
  · constructor
    · intro hc
      by_contra hok
      have hok' : respOk r = false := by
        cases h : respOk r
        · rfl
        · exact absurd h hok
      revert hc
      show (if respOk r = true then AttemptClass.success (dataOf r)
        else
          if (r.status == 400 ||
              hasFatalMarkerLower (jsToLower (errorMessageOf r))) = true then
            catchClassify serverUrl
              ("[" ++ toString r.status ++ "] " ++ errorMessageOf r)
          else AttemptClass.retriable (errorMessageOf r)) =
        AttemptClass.success (dataOf r) → False
      rw [hok']
      simp only [Bool.false_eq_true, if_false]
      split
      · exact fun hc => catchClassify_ne_success _ _ _ hc
      · simp
    · intro hok
      show (if respOk r = true then AttemptClass.success (dataOf r)
        else
          if (r.status == 400 ||
              hasFatalMarkerLower (jsToLower (errorMessageOf r))) = true then
            catchClassify serverUrl
              ("[" ++ toString r.status ++ "] " ++ errorMessageOf r)
          else AttemptClass.retriable (errorMessageOf r)) =
        AttemptClass.success (dataOf r)
      rw [if_pos hok]
  · intro hok hparsed hstatus hmk
    have hem : errorMessageOf r = nonJsonMessage r := by
      unfold errorMessageOf
      rw [hparsed]
    show (if respOk r = true then AttemptClass.success (dataOf r)
      else
        if (r.status == 400 ||
            hasFatalMarkerLower (jsToLower (errorMessageOf r))) = true then
          catchClassify serverUrl
            ("[" ++ toString r.status ++ "] " ++ errorMessageOf r)
        else AttemptClass.retriable (errorMessageOf r)) =
      AttemptClass.retriable (nonJsonMessage r)
    rw [hok]
    simp only [Bool.false_eq_true, if_false]
    rw [hem]
    have hguard : (r.status == 400 ||
        hasFatalMarkerLower (jsToLower (nonJsonMessage r))) = false := by
      simp [hmk, hstatus]
    rw [hguard]
    simp
  · intro htok hjlen hjbud hpre hj hs
    unfold executeProxiedRequest
    rw [if_neg (by simpa [List.isEmpty_iff] using htok)]
    have hres := runLoop_success_at lc
      (maxRetries lc (resolveServers env).length tokens.length) fetch m j
      (attemptPairs (shuffleS (resolveServers env)) (shuffleT tokens)) 0 none
      s0 t0 d (by omega) hjlen
      (fun i hi => by
        have := hpre i hi
        simpa using this)
      hj (by simpa using hs)
    rw [hres]
    simp

/-- C4 witness: a non-2xx, non-fatal attempt with a non-JSON body is
classified retriable. -/
theorem C4_witness :
    classifyAttempt "S"
        (FetchOutcome.resp { status := 503, bodyText := "oops", parsed := none }) =
      AttemptClass.retriable
        (nonJsonMessage { status := 503, bodyText := "oops", parsed := none }) :=
  (C4_amended_success_iff "S" { status := 503, bodyText := "oops", parsed := none }
    ServiceType.veo "X" [] emptyEnv
    id id (fun _ _ _ => FetchOutcome.thrown "") (fun _ => "") 0 ""
    tokPersonal (JsonData.nonJsonEnvelope "")).2.1
    (by decide) rfl (by decide) (by decide)

/-- C5 counterexample: a status poll (logContext "VEO STATUS") whose only
attempt fails retriably raises the exhausted error with attempt count 1
but appends zero log records — the claim instead requires a single
aggregate failure record to be logged. -/
theorem C5_counterexample :
    executeProxiedRequest ServiceType.veo "VEO STATUS" [tokPersonal]
        sampleEnv id id fetch500 =
      { result := DispatchResult.exhausted 1 "boom"
        logs := []
        attempts := 1 } := by
  decide

/-- C5 (amended): if every attempt up to the retry budget fails with a
RetriableFailure, the dispatcher raises the exhausted error carrying the
computed budget as attempt count and the last observed error message; for
requests other than the status poll it is logged as a single aggregate
record, while status polls log nothing. -/
theorem C5_amended_exhaustion (serviceType : ServiceType) (lc : String)
    (tokens : List TokenInfo) (env : ServerEnv)
    (shuffleS : List String → List String)
    (shuffleT : List TokenInfo → List TokenInfo)
    (fetch : Nat → String → TokenInfo → FetchOutcome) (m : Nat → String)
    (htok : tokens ≠ []) (hsrv : resolveServers env ≠ [])
    (hlenS : (shuffleS (resolveServers env)).length = (resolveServers env).length)
    (hlenT : (shuffleT tokens).length = tokens.length)
    (hall : ∀ i,
      i < (attemptPairs (shuffleS (resolveServers env)) (shuffleT tokens)).length →
      i < maxRetries lc (resolveServers env).length tokens.length →
      classifyAttempt
        ((attemptPairs (shuffleS (resolveServers env))
          (shuffleT tokens)).getD i defaultPair).1
        (fetch (i + 1)
          ((attemptPairs (shuffleS (resolveServers env))
            (shuffleT tokens)).getD i defaultPair).1
          ((attemptPairs (shuffleS (resolveServers env))
            (shuffleT tokens)).getD i defaultPair).2) =
        AttemptClass.retriable (m (i + 1))) :
    executeProxiedRequest serviceType lc tokens env shuffleS shuffleT fetch =
      { result := DispatchResult.exhausted
          (maxRetries lc (resolveServers env).length tokens.length)
          (m (maxRetries lc (resolveServers env).length tokens.length))
        logs := if isStatusCheck lc then [] else
          [exhaustedLogEntry lc
            (maxRetries lc (resolveServers env).length tokens.length)
            (m (maxRetries lc (resolveServers env).length tokens.length))]
        attempts := maxRetries lc (resolveServers env).length tokens.length } := by
  have hlS : 0 < (resolveServers env).length := List.length_pos.mpr hsrv
  have hlT : 0 < tokens.length := List.length_pos.mpr htok
  have hb : 0 < maxRetries lc (resolveServers env).length tokens.length :=
    maxRetries_pos _ _ _ hlS hlT
  have hplen : (attemptPairs (shuffleS (resolveServers env))
      (shuffleT tokens)).length = (resolveServers env).length * tokens.length := by
    rw [attemptPairs_length, hlenS, hlenT]
  unfold executeProxiedRequest
  rw [if_neg (by simpa [List.isEmpty_iff] using htok)]
  apply runLoop_all_retriable lc _ fetch m hb _ 0 none (Nat.zero_le _)
  · rw [Nat.zero_add, hplen]
    exact maxRetries_le_product _ _ _ hlS hlT
  · simp
  · intro i hi hib
    have := hall i hi (by simpa using hib)
    simpa using this

/-- C5 witness: a concrete generation dispatch whose single combination
fails retriably is exhausted at the budget with one aggregate record. -/
theorem C5_witness :
    executeProxiedRequest ServiceType.imagen "IMAGEN GENERATE" [tokPersonal]
        sampleEnv id id fetch500 =
      { result := DispatchResult.exhausted
          (maxRetries "IMAGEN GENERATE" (resolveServers sampleEnv).length
            [tokPersonal].length)
          "boom"
        logs := if isStatusCheck "IMAGEN GENERATE" then [] else
          [exhaustedLogEntry "IMAGEN GENERATE"
            (maxRetries "IMAGEN GENERATE" (resolveServers sampleEnv).length
              [tokPersonal].length)
            "boom"]
        attempts := maxRetries "IMAGEN GENERATE" (resolveServers sampleEnv).length
          [tokPersonal].length } :=
  C5_amended_exhaustion ServiceType.imagen "IMAGEN GENERATE" [tokPersonal]
    sampleEnv id id fetch500 (fun _ => "boom")
    (by decide) (by decide) rfl rfl
    (by
      intro i hi _
      have hlen : (attemptPairs (id (resolveServers sampleEnv))
          (id [tokPersonal])).length = 1 := by decide
      rw [hlen] at hi
      have : i = 0 := by omega
      subst this
      decide)

/-- C6 counterexample: a thrown message carrying the transport marker
`ERR_` (the realistic browser error `net::ERR_BLOCKED_BY_CLIENT`) is
classified fatal, because the hard-error markers are tested before the
transport markers and the lowered text contains "blocked" — the claim
instead requires every transport-marked throw to be a RetriableFailure. -/
theorem C6_counterexample :
    isTransportErrorMsg "net::ERR_BLOCKED_BY_CLIENT" = true ∧
    classifyAttempt "https://s1.monoklix.com"
        (FetchOutcome.thrown "net::ERR_BLOCKED_BY_CLIENT") =
      AttemptClass.fatal "net::ERR_BLOCKED_BY_CLIENT" := by
  constructor
  · decide
  · decide

/-- C6 (amended): a thrown error whose message carries a transport marker
and no fatal marker is classified RetriableFailure with the synthesized
network-error message, and the dispatcher advances to the next
(server, token) combination; the classifier tests the fatal markers before
the transport markers, so a transport throw whose text also matches a
fatal marker is treated as fatal instead. -/
theorem C6_amended_transport_retriable (serverUrl errMsg : String)
    (hhard : isHardErrorMsg errMsg = false)
    (htrans : isTransportErrorMsg errMsg = true) :
    classifyAttempt serverUrl (FetchOutcome.thrown errMsg) =
      AttemptClass.retriable ("Network error: Cannot connect to " ++ serverUrl) ∧
    ∀ (lc : String) (budget : Nat)
      (fetch : Nat → String → TokenInfo → FetchOutcome) (t : TokenInfo)
      (rest : List (String × TokenInfo)) (tried : Nat) (lastE : Option String),
      tried < budget →
      fetch (tried + 1) serverUrl t = FetchOutcome.thrown errMsg →
      runLoop lc budget fetch ((serverUrl, t) :: rest) tried lastE =
        runLoop lc budget fetch rest (tried + 1)
          (some ("Network error: Cannot connect to " ++ serverUrl)) := by
  have hclass : classifyAttempt serverUrl (FetchOutcome.thrown errMsg) =
      AttemptClass.retriable ("Network error: Cannot connect to " ++ serverUrl) := by
    show catchClassify serverUrl errMsg = _
    unfold catchClassify
    rw [if_neg (by simp [hhard]), if_pos htrans]
  refine ⟨hclass, ?_⟩
  intro lc budget fetch t rest tried lastE hlt hf
  rw [runLoop, if_pos hlt, hf, hclass]

/-- C6 witness: a plain fetch failure is retriable and advances. -/
theorem C6_witness :
    classifyAttempt "https://s1.monoklix.com"
        (FetchOutcome.thrown "Failed to fetch") =
      AttemptClass.retriable
        ("Network error: Cannot connect to " ++ "https://s1.monoklix.com") :=
  (C6_amended_transport_retriable "https://s1.monoklix.com" "Failed to fetch"
    (by decide) (by decide)).1

/-- C7 counterexample: with `overrideServer` set but the runtime detected
as local development, the candidate server list is the fixed local
endpoint, not the overridden server — the claim instead requires the
overridden server to be the list unconditionally. -/
theorem C7_counterexample :
    resolveServers localOverrideEnv = ["http://localhost:3001"] ∧
    (["http://localhost:3001"] : List String) ≠ ["https://s2.monoklix.com"] := by
  constructor
  · decide
  · decide

/-- C7 (amended): with `overrideServer` set and the runtime not detected as
local development, the candidate server list is exactly the single
overridden server with no filtering applied, and every attempted
(server, token) pair uses that server. -/
theorem C7_amended_override (env : ServerEnv) (url : String)
    (hov : env.overrideServerUrl = some url)
    (hloc : env.isLocalEnv = false) :
    resolveServers env = [url] ∧
    ∀ (l : List String) (tokens : List TokenInfo),
      l.Perm (resolveServers env) →
      ∀ p ∈ attemptPairs l tokens, p.1 = url := by
  have h1 : resolveServers env = [url] := by
    unfold resolveServers
    rw [hov, hloc]
    simp
  refine ⟨h1, ?_⟩
  intro l tokens hperm p hmem
  rw [h1] at hperm
  have hl : l = [url] := List.perm_singleton.mp hperm
  subst hl
  simp only [attemptPairs, List.flatMap_cons, List.flatMap_nil,
    List.append_nil, List.mem_map] at hmem
  obtain ⟨t, _, rfl⟩ := hmem
  rfl

/-- C7 witness: the override is the whole list in a non-local run. -/
theorem C7_witness :
    resolveServers sampleEnv = ["https://s1.monoklix.com"] :=
  (C7_amended_override sampleEnv "https://s1.monoklix.com" rfl rfl).1

/-- C8 counterexample: promoting the user-selected server "A" over the
filtered list ["A", "B", "A"] yields ["A", "B"] — the second occurrence of
"A" is deduplicated away, while the claim requires duplicate occurrences
of the promoted server to be kept. -/
theorem C8_counterexample :
    resolveServers dupSelectedEnv = ["A", "B"] ∧
    dupSelectedEnv.scopedServers.count "A" = 2 ∧
    (["A", "B"] : List String).count "A" = 1 := by
  refine ⟨?_, ?_, ?_⟩
  · decide
  · decide
  · decide

/-- C8 (amended): when the user-selected server is present in the filtered
list it is moved to index 0 and every other occurrence of it is removed
(the promotion deduplicates the selected server), while the occurrence
counts of all other servers are unchanged. -/
theorem C8_amended_promotion (sel : String) (avail : List String)
    (h : avail.contains sel = true) :
    promoteSelected (some sel) avail =
      sel :: avail.filter (fun s => !(s == sel)) ∧
    (promoteSelected (some sel) avail).head? = some sel ∧
    (promoteSelected (some sel) avail).count sel = 1 ∧
    (∀ x, x ≠ sel → (promoteSelected (some sel) avail).count x = avail.count x) := by
  have he : promoteSelected (some sel) avail =
      sel :: avail.filter (fun s => !(s == sel)) := by
    show (if avail.contains sel = true then
        sel :: avail.filter (fun s => !(s == sel))
      else avail) = sel :: avail.filter (fun s => !(s == sel))
    rw [if_pos h]
  refine ⟨he, by rw [he]; rfl, ?_, ?_⟩
  · rw [he, List.count_cons]
    simp [count_filter_self]
  · intro x hx
    rw [he, List.count_cons, count_filter_ne sel x hx]
    simp [Ne.symm hx, hx]

/-- C8 witness: the promoted selected server occurs exactly once. -/
theorem C8_witness :
    (promoteSelected (some "A") ["A", "B", "A"]).count "A" = 1 :=
  (C8_amended_promotion "A" ["A", "B", "A"] (by decide)).2.2.1

/-- C9 counterexample: a status poll (logContext "VEO STATUS") ending in a
FatalFailure appends zero log entries — the claim instead requires exactly
one structured log entry for every terminal fatal outcome. -/
theorem C9_counterexample :
    executeProxiedRequest ServiceType.veo "VEO STATUS" [tokPersonal]
        sampleEnv id id fetch400 =
      { result := DispatchResult.fatalError "[400] bad"
        logs := []
        attempts := 1 } := by
  decide

/-- C9 (amended): at most one structured log entry is appended per
dispatch; a status poll appends none; successful, authentication-error and
fall-through outcomes append none; and for non-status-poll requests every
terminal fatal or exhausted outcome appends exactly one entry — individual
RetriableFailures are never persisted. -/
theorem C9_amended_logging (serviceType : ServiceType) (lc : String)
    (tokens : List TokenInfo) (env : ServerEnv)
    (shuffleS : List String → List String)
    (shuffleT : List TokenInfo → List TokenInfo)
    (fetch : Nat → String → TokenInfo → FetchOutcome) :
    ((executeProxiedRequest serviceType lc tokens env shuffleS shuffleT fetch).logs.length ≤ 1) ∧
    (isStatusCheck lc = true →
      (executeProxiedRequest serviceType lc tokens env shuffleS shuffleT fetch).logs = []) ∧
    (∀ d tk sv,
      (executeProxiedRequest serviceType lc tokens env shuffleS shuffleT fetch).result =
        DispatchResult.success d tk sv →
      (executeProxiedRequest serviceType lc tokens env shuffleS shuffleT fetch).logs = []) ∧
    (∀ msg,
      (executeProxiedRequest serviceType lc tokens env shuffleS shuffleT fetch).result =
        DispatchResult.authError msg →
      (executeProxiedRequest serviceType lc tokens env shuffleS shuffleT fetch).logs = []) ∧
    ((executeProxiedRequest serviceType lc tokens env shuffleS shuffleT fetch).result =
        DispatchResult.noCombination →
      (executeProxiedRequest serviceType lc tokens env shuffleS shuffleT fetch).logs = []) ∧
    (isStatusCheck lc = false → ∀ msg,
      (executeProxiedRequest serviceType lc tokens env shuffleS shuffleT fetch).result =
        DispatchResult.fatalError msg →
      (executeProxiedRequest serviceType lc tokens env shuffleS shuffleT fetch).logs.length = 1) ∧
    (isStatusCheck lc = false → ∀ n e,
      (executeProxiedRequest serviceType lc tokens env shuffleS shuffleT fetch).result =
        DispatchResult.exhausted n e →
      (executeProxiedRequest serviceType lc tokens env shuffleS shuffleT fetch).logs.length = 1) := by
  unfold executeProxiedRequest
  by_cases he : tokens.isEmpty
  · rw [if_pos he]
    refine ⟨by simp, fun _ => rfl, ?_, fun _ _ => rfl, by simp, ?_, ?_⟩
    · intro d tk sv hcontra
      simp at hcontra
    · intro _ msg hcontra
      simp at hcontra
    · intro _ n e hcontra
      simp at hcontra
  · rw [if_neg he]
    have H := runLoop_logs_shape lc
      (maxRetries lc (resolveServers env).length tokens.length) fetch
      (attemptPairs (shuffleS (resolveServers env)) (shuffleT tokens)) 0 none
    exact ⟨H.2.2.2.2.2.2, H.1, H.2.1, H.2.2.2.1, H.2.2.1, H.2.2.2.2.1, H.2.2.2.2.2.1⟩

/-- C9 witness: a status-poll dispatch appends no log entry. -/
theorem C9_witness :
    (executeProxiedRequest ServiceType.veo "VEO STATUS" [tokPersonal]
      sampleEnv id id fetch500).logs = [] :=
  (C9_amended_logging ServiceType.veo "VEO STATUS" [tokPersonal]
    sampleEnv id id fetch500).2.1 rfl

end Monoklix
